import Mathlib

/-!
Shallow embedding of the navidrome tag-enrichment pipeline:
the batch orchestrators (`fetchTrackDataForSongs`, `fetchLyricsForSongs`),
the per-song processing (`processSong`, lyrics loop body), the energy
classifier (`classifyEnergy`), the track-analysis HTTP client retry loop
(`FetchTrackData`), and the energy/mood tag-mutation handlers
(`setEnergy`, `setMood`).

External effects (taglib reads/writes, provider calls, database puts) are
modelled by per-song environments supplying each call's outcome, and each
operation additionally returns the trace of effects it performed, so that
ordering and absence of effects can be stated.
-/

/-- A tag block as returned by `taglib.Read`: tag key to list of values. -/
abbrev TagMap := List (String × List String)

/-- Embeds strings.ToLower on the ASCII tag keys the pipeline compares. -/
def lowerStr (s : String) : String := String.mk (s.data.map Char.toLower)

/-- Embeds strings.HasPrefix. -/
def strHasPrefix (s p : String) : Bool := p.data.isPrefixOf s.data

/-- Observable effects of per-song processing in the batch orchestrators. -/
inductive Effect where
  | readTags
  | fetchData
  | writeTag (name value : String)
  | dbPut
  deriving DecidableEq, Repr

/-! ## Track-metrics flow (src/server/nativeapi/trackdata.go) -/

/-- Model of trackanalysis.TrackData: the analysis results the pipeline cares about. -/
structure TrackData where
  energyVal : Int
  happiness : Int
  instrumentalness : Int
  deriving DecidableEq, Repr

/-- Environment for processing one song in the track-metrics flow:
the outcome of `taglib.Read` (`none` = read error), of
`trackanalysis.FetchTrackData` (`none` = any fetch error), and of each
`taglib.WriteTag` call by tag name. -/
structure TrackSongEnv where
  readResult : Option TagMap
  fetchResult : Option TrackData
  writeOk : String → Bool

/-- Model of songResult from trackdata.go: flags for the outcome of one song. -/
structure songResult where
  fetched : Bool
  failed : Bool
  skipped : Bool
  deriving DecidableEq, Repr

/-- The skip test in `processSong`: does any key of the tag block,
lower-cased, equal one of the three metric tag names? -/
def hasTrackDataTag (tags : TagMap) : Bool :=
  tags.any fun kv =>
    let keyLower := lowerStr kv.1
    keyLower == "energyval" || keyLower == "happiness" || keyLower == "instrumentalness"

/-- Model of writeTrackDataTags: writes ENERGYVAL, then HAPPINESS, then
INSTRUMENTALNESS to the file, stopping at the first failing write.
Returns success and the trace of attempted writes. -/
def writeTrackDataTags (env : TrackSongEnv) (data : TrackData) : Bool × List Effect :=
  let w1 := Effect.writeTag "ENERGYVAL" (toString data.energyVal)
  if env.writeOk "ENERGYVAL" = false then (false, [w1])
  else
    let w2 := Effect.writeTag "HAPPINESS" (toString data.happiness)
    if env.writeOk "HAPPINESS" = false then (false, [w1, w2])
    else
      let w3 := Effect.writeTag "INSTRUMENTALNESS" (toString data.instrumentalness)
      if env.writeOk "INSTRUMENTALNESS" = false then (false, [w1, w2, w3])
      else (true, [w1, w2, w3])

/-- Model of processSong from trackdata.go: skip when the tag block was read
successfully and carries a metric tag; otherwise fetch, then write tags;
each failure stage yields `failed`, full success yields `fetched`. -/
def processSong (env : TrackSongEnv) : songResult × List Effect :=
  let skip : Bool :=
    match env.readResult with
    | some tags => hasTrackDataTag tags
    | none => false
  if skip then
    ({ fetched := false, failed := false, skipped := true }, [Effect.readTags])
  else
    match env.fetchResult with
    | none => ({ fetched := false, failed := true, skipped := false }, [Effect.readTags, Effect.fetchData])
    | some data =>
      let res := writeTrackDataTags env data
      if res.1 then
        ({ fetched := true, failed := false, skipped := false },
          [Effect.readTags, Effect.fetchData] ++ res.2)
      else
        ({ fetched := false, failed := true, skipped := false },
          [Effect.readTags, Effect.fetchData] ++ res.2)

/-- Model of fetchTrackDataResponse: the counters returned for one batch. -/
structure fetchTrackDataResponse where
  total : Nat
  fetched : Nat
  failed : Nat
  skipped : Nat
  deriving DecidableEq, Repr

/-- One iteration of the loop in `fetchTrackDataForSongs`: fold the song's
result into the running counters. -/
def trackStep (resp : fetchTrackDataResponse) (env : TrackSongEnv) : fetchTrackDataResponse :=
  let result := (processSong env).1
  if result.fetched then { resp with fetched := resp.fetched + 1 }
  else if result.failed then { resp with failed := resp.failed + 1 }
  else if result.skipped then { resp with skipped := resp.skipped + 1 }
  else resp

/-- Model of fetchTrackDataForSongs: process the member files sequentially and
return the counters, with `total` fixed to the batch size. -/
def fetchTrackDataForSongs (songs : List TrackSongEnv) : fetchTrackDataResponse :=
  songs.foldl trackStep { total := songs.length, fetched := 0, failed := 0, skipped := 0 }

/-! ## Lyrics flow (src/server/nativeapi/lyrics.go) -/

/-- Environment for one song in the lyrics flow: outcome of `taglib.Read`,
whether `lyrics.FetchFromGenius` returned an error, the lyric list it
returned otherwise, and the outcomes of `json.Marshal` and the database
`Put`. -/
structure LyricsSongEnv where
  readResult : Option TagMap
  fetchErr : Bool
  fetchList : List String
  marshalOk : Bool
  putOk : Bool

/-- Outcome of the lyrics loop body for one song. -/
inductive LyricsOutcome where
  | skipped
  | failed
  | fetched
  deriving DecidableEq, Repr

/-- The loop body of `fetchLyricsForSongs` for a single song: skip when a
correctly-keyed lyric tag (key lower-cases to a `lyrics:` prefix) is
present in a successfully read tag block; otherwise fetch, marshal, and
persist, failing at the first failing stage. -/
def processLyricsSong (env : LyricsSongEnv) : LyricsOutcome × List Effect :=
  let hasCorrectlyStoredLyrics : Bool :=
    match env.readResult with
    | some tags => tags.any fun kv => strHasPrefix (lowerStr kv.1) "lyrics:"
    | none => false
  if hasCorrectlyStoredLyrics then (LyricsOutcome.skipped, [Effect.readTags])
  else if env.fetchErr then (LyricsOutcome.failed, [Effect.readTags, Effect.fetchData])
  else if env.fetchList.length = 0 then (LyricsOutcome.failed, [Effect.readTags, Effect.fetchData])
  else if env.marshalOk = false then (LyricsOutcome.failed, [Effect.readTags, Effect.fetchData])
  else if env.putOk = false then
    (LyricsOutcome.failed, [Effect.readTags, Effect.fetchData, Effect.dbPut])
  else (LyricsOutcome.fetched, [Effect.readTags, Effect.fetchData, Effect.dbPut])

/-- Model of fetchLyricsResponse: the counters returned for one lyrics batch. -/
structure fetchLyricsResponse where
  total : Nat
  fetched : Nat
  failed : Nat
  skipped : Nat
  deriving DecidableEq, Repr

/-- One iteration of the loop in `fetchLyricsForSongs`. -/
def lyricsStep (resp : fetchLyricsResponse) (env : LyricsSongEnv) : fetchLyricsResponse :=
  match (processLyricsSong env).1 with
  | LyricsOutcome.skipped => { resp with skipped := resp.skipped + 1 }
  | LyricsOutcome.failed => { resp with failed := resp.failed + 1 }
  | LyricsOutcome.fetched => { resp with fetched := resp.fetched + 1 }

/-- Model of fetchLyricsForSongs: process the member files sequentially; `total`
is set to the batch size up front. -/
def fetchLyricsForSongs (songs : List LyricsSongEnv) : fetchLyricsResponse :=
  songs.foldl lyricsStep { total := songs.length, fetched := 0, failed := 0, skipped := 0 }

/-! ## Energy classifier (src/core/audio/analyzer.go)

Go `float64` metrics are embedded as rationals: every comparison in
`classifyEnergy` is a plain `>=` against a constant, which `ℚ` models
exactly. -/

/-- Model of AudioMetrics: the extracted audio features. -/
structure AudioMetrics where
  bpm : ℚ
  beatsLoudness : ℚ
  averageLoudness : ℚ
  danceability : ℚ
  deriving DecidableEq, Repr

/-- Model of ScoreBreakdown: how the energy score was calculated. -/
structure ScoreBreakdown where
  bpmScore : Int
  beatsScore : Int
  loudnessScore : Int
  danceabilityScore : Int
  totalScore : Int
  deriving DecidableEq, Repr

/-- Model of classifyEnergy: determines the energy level from audio metrics via
the fixed scoring table, the score sum, and the label thresholds. -/
def classifyEnergy (metrics : AudioMetrics) : String × ScoreBreakdown :=
  let bpmScore : Int :=
    if metrics.bpm ≥ 130 then 3
    else if metrics.bpm ≥ 110 then 2
    else if metrics.bpm ≥ 85 then 1
    else 0
  let beatsScore : Int :=
    if metrics.beatsLoudness ≥ 0.7 then 2
    else if metrics.beatsLoudness ≥ 0.4 then 1
    else 0
  let loudnessScore : Int := if metrics.averageLoudness ≥ 0.8 then 1 else 0
  let danceabilityScore : Int := if metrics.danceability ≥ 0.7 then 1 else 0
  let totalScore := bpmScore + beatsScore + loudnessScore + danceabilityScore
  let energy : String :=
    if totalScore ≥ 5 then "high"
    else if totalScore ≥ 2 then "medium"
    else "low"
  (energy, { bpmScore := bpmScore, beatsScore := beatsScore, loudnessScore := loudnessScore,
             danceabilityScore := danceabilityScore, totalScore := totalScore })

/-! ## Track-analysis HTTP client (package trackanalysis)

`FetchTrackData` is modelled over an environment giving, per attempt
index, whether the request itself errs, the HTTP status returned, and
whether the caller's context is cancelled during the backoff wait that
precedes that attempt. The trace records requests issued and completed
waits with their lengths in seconds. -/

/-- Error outcomes of `trackanalysis.FetchTrackData`. -/
inductive FetchErr where
  | notAvailable
  | argsRequired
  | requestFailed
  | canceled
  | rateLimited
  | notFound
  | apiStatus (status : Nat)
  | decodeFailed
  deriving DecidableEq, Repr

/-- Events observable from the retry loop. -/
inductive RetryEvent where
  | wait (secs : Nat)
  | request
  deriving DecidableEq, Repr

/-- Environment for one `FetchTrackData` call. -/
structure RetryEnv where
  apiKey : String
  netErr : Nat → Bool
  status : Nat → Nat
  canceledDuringWait : Nat → Bool
  decodeOk : Bool
  responseData : TrackData

/-- The retry loop of `FetchTrackData`: `attempt` is the current 0-based
attempt, `rem` the number of loop iterations still permitted (entered with
`attempt = 0`, `rem = maxRetries`). Before every attempt but the first the
loop waits `2 ^ attempt` seconds, aborting with the context's error if the
context is cancelled during the wait; a non-429 status breaks out of the
loop; a 429 on the last permitted attempt yields `rateLimited`. -/
def retryAux (env : RetryEnv) : Nat → Nat → Except FetchErr Nat × List RetryEvent
  | _, 0 => (Except.error FetchErr.rateLimited, [])
  | attempt, rem + 1 =>
    let waited : Option (List RetryEvent) :=
      if attempt = 0 then some []
      else if env.canceledDuringWait attempt then none
      else some [RetryEvent.wait (2 ^ attempt)]
    match waited with
    | none => (Except.error FetchErr.canceled, [])
    | some pre =>
      if env.netErr attempt then (Except.error FetchErr.requestFailed, pre ++ [RetryEvent.request])
      else
        let s := env.status attempt
        if s ≠ 429 then (Except.ok s, pre ++ [RetryEvent.request])
        else if rem = 0 then (Except.error FetchErr.rateLimited, pre ++ [RetryEvent.request])
        else
          let rest := retryAux env (attempt + 1) rem
          (rest.1, pre ++ [RetryEvent.request] ++ rest.2)

/-- Constant maxRetries in `FetchTrackData`. -/
def maxRetries : Nat := 6

/-- Model of FetchTrackData: requires a configured API key and non-empty artist
and title, runs the retry loop, then maps the final status (404 →
`notFound`, other non-200 → `apiStatus`, 200 → decode the payload). -/
def FetchTrackData (env : RetryEnv) (artist title : String) :
    Except FetchErr TrackData × List RetryEvent :=
  if env.apiKey = "" then (Except.error FetchErr.notAvailable, [])
  else if artist = "" ∨ title = "" then (Except.error FetchErr.argsRequired, [])
  else
    let res := retryAux env 0 maxRetries
    match res.1 with
    | Except.error e => (Except.error e, res.2)
    | Except.ok s =>
      if s = 404 then (Except.error FetchErr.notFound, res.2)
      else if s ≠ 200 then (Except.error (FetchErr.apiStatus s), res.2)
      else if env.decodeOk = false then (Except.error FetchErr.decodeFailed, res.2)
      else (Except.ok env.responseData, res.2)

/-! ## Energy/mood tag-mutation handlers (src/server/nativeapi/song_tag.go) -/

/-- Valid energy values. -/
def validEnergyValues : List String := ["", "low", "medium", "high"]

/-- Valid mood values. -/
def validMoodValues : List String := ["", "negative", "neutral", "positive"]

/-- A media-file record as the handlers see it: the fields they read or
mutate. The tag mapping is an association list standing for the Go map
(`Tags.set`/`Tags.erase` below preserve its key-uniqueness). -/
structure MediaFile where
  id : String
  libraryPath : String
  path : String
  tags : TagMap
  updatedAt : Nat
  deriving DecidableEq, Repr

/-- Map update: `m[k] = v` on the Go tag map. -/
def Tags.set (tags : TagMap) (k : String) (v : List String) : TagMap :=
  tags.filter (fun kv => kv.1 ≠ k) ++ [(k, v)]

/-- Map deletion: `delete(m, k)` on the Go tag map. -/
def Tags.erase (tags : TagMap) (k : String) : TagMap :=
  tags.filter fun kv => kv.1 ≠ k

/-- Map lookup on the Go tag map. -/
def Tags.lookup (tags : TagMap) (k : String) : Option (List String) :=
  (tags.find? fun kv => kv.1 == k).map fun kv => kv.2

/-- Outcome of `ds.MediaFile(ctx).Get(id)`. -/
inductive GetResult where
  | notFound
  | internalError
  | found (mf : MediaFile)

/-- Environment for one `setEnergy`/`setMood` request: whether the body
decoded, the decoded value, the database lookup result, and the outcomes
of the file-tag write and the database `Put`. `now` is the timestamp the
handler stamps into `UpdatedAt`. -/
structure SetTagEnv where
  decodeOk : Bool
  reqValue : String
  getResult : GetResult
  writeOk : Bool
  putOk : Bool
  now : Nat

/-- Effects a set-tag handler performs, in order. -/
inductive HandlerEffect where
  | writeTag (name value : String)
  | dbPut (record : MediaFile)
  deriving DecidableEq, Repr

/-- Result of a set-tag handler: HTTP status, the record now stored in the
database when it was updated (`none` when the database was not updated),
and the effect trace. -/
structure SetTagResult where
  status : Nat
  record : Option MediaFile
  effects : List HandlerEffect
  deriving DecidableEq, Repr

/-- Model of setEnergy: decode body, validate the value against the enumeration,
load the record, write the ENERGY file tag, then update the in-memory tag
mapping (empty value deletes the entry), stamp `UpdatedAt` and `Put` the
record; a failure at any stage returns the matching HTTP status with no
later stage performed. -/
def setEnergy (env : SetTagEnv) : SetTagResult :=
  if env.decodeOk = false then { status := 400, record := none, effects := [] }
  else if (validEnergyValues.contains env.reqValue) = false then
    { status := 400, record := none, effects := [] }
  else
    match env.getResult with
    | GetResult.notFound => { status := 404, record := none, effects := [] }
    | GetResult.internalError => { status := 500, record := none, effects := [] }
    | GetResult.found mf =>
      let w := HandlerEffect.writeTag "ENERGY" env.reqValue
      if env.writeOk = false then { status := 500, record := none, effects := [w] }
      else
        let tags' :=
          if env.reqValue = "" then Tags.erase mf.tags "energy"
          else Tags.set mf.tags "energy" [env.reqValue]
        let mf' := { mf with tags := tags', updatedAt := env.now }
        if env.putOk = false then
          { status := 500, record := none, effects := [w, HandlerEffect.dbPut mf'] }
        else
          { status := 200, record := some mf', effects := [w, HandlerEffect.dbPut mf'] }

/-- Model of setMood: identical to `setEnergy` but for the MOOD tag and the mood
enumeration. -/
def setMood (env : SetTagEnv) : SetTagResult :=
  if env.decodeOk = false then { status := 400, record := none, effects := [] }
  else if (validMoodValues.contains env.reqValue) = false then
    { status := 400, record := none, effects := [] }
  else
    match env.getResult with
    | GetResult.notFound => { status := 404, record := none, effects := [] }
    | GetResult.internalError => { status := 500, record := none, effects := [] }
    | GetResult.found mf =>
      let w := HandlerEffect.writeTag "MOOD" env.reqValue
      if env.writeOk = false then { status := 500, record := none, effects := [w] }
      else
        let tags' :=
          if env.reqValue = "" then Tags.erase mf.tags "mood"
          else Tags.set mf.tags "mood" [env.reqValue]
        let mf' := { mf with tags := tags', updatedAt := env.now }
        if env.putOk = false then
          { status := 500, record := none, effects := [w, HandlerEffect.dbPut mf'] }
        else
          { status := 200, record := some mf', effects := [w, HandlerEffect.dbPut mf'] }

/-- Every run of `processSong` sets exactly one of the three result flags. -/
theorem processSong_flags (env : TrackSongEnv) :
    (processSong env).1 = { fetched := true, failed := false, skipped := false } ∨
    (processSong env).1 = { fetched := false, failed := true, skipped := false } ∨
    (processSong env).1 = { fetched := false, failed := false, skipped := true } := by
  rcases hr : env.readResult with _ | tags <;>
    rcases hf : env.fetchResult with _ | data <;>
      simp only [processSong, hr, hf] <;>
        repeat' split <;> simp

/-- The `skipped` flag of `processSong` is exactly the skip test on a
successfully read tag block. -/
theorem processSong_skipped_eq (env : TrackSongEnv) :
    (processSong env).1.skipped =
      (match env.readResult with
       | some tags => hasTrackDataTag tags
       | none => false) := by
  rcases hr : env.readResult with _ | tags <;>
    rcases hf : env.fetchResult with _ | data <;>
      simp only [processSong, hr, hf] <;>
        repeat' split <;> simp_all

/-- One orchestrator step adds exactly one to the fetched/failed/skipped sum
and leaves `total` alone (track-metrics flow). -/
theorem trackStep_counts (resp : fetchTrackDataResponse) (env : TrackSongEnv) :
    (trackStep resp env).fetched + (trackStep resp env).failed + (trackStep resp env).skipped
        = resp.fetched + resp.failed + resp.skipped + 1 ∧
      (trackStep resp env).total = resp.total := by
  rcases processSong_flags env with h | h | h <;> simp [trackStep, h] <;> omega

/-- One orchestrator step adds exactly one to the fetched/failed/skipped sum
and leaves `total` alone (lyrics flow). -/
theorem lyricsStep_counts (resp : fetchLyricsResponse) (env : LyricsSongEnv) :
    (lyricsStep resp env).fetched + (lyricsStep resp env).failed + (lyricsStep resp env).skipped
        = resp.fetched + resp.failed + resp.skipped + 1 ∧
      (lyricsStep resp env).total = resp.total := by
  cases h : (processLyricsSong env).1 <;> simp [lyricsStep, h] <;> omega

/-- Folding the track-metrics step over a batch adds the batch length to the
counter sum and preserves `total`. -/
theorem trackFold_counts (songs : List TrackSongEnv) (acc : fetchTrackDataResponse) :
    (songs.foldl trackStep acc).fetched + (songs.foldl trackStep acc).failed +
          (songs.foldl trackStep acc).skipped
        = acc.fetched + acc.failed + acc.skipped + songs.length ∧
      (songs.foldl trackStep acc).total = acc.total := by
  induction songs generalizing acc with
  | nil => simp
  | cons e rest ih =>
    simp only [List.foldl_cons, List.length_cons]
    have h := trackStep_counts acc e
    have h2 := ih (trackStep acc e)
    refine ⟨?_, h2.2.trans h.2⟩
    rw [h2.1, h.1]
    omega

/-- Folding the lyrics step over a batch adds the batch length to the counter
sum and preserves `total`. -/
theorem lyricsFold_counts (songs : List LyricsSongEnv) (acc : fetchLyricsResponse) :
    (songs.foldl lyricsStep acc).fetched + (songs.foldl lyricsStep acc).failed +
          (songs.foldl lyricsStep acc).skipped
        = acc.fetched + acc.failed + acc.skipped + songs.length ∧
      (songs.foldl lyricsStep acc).total = acc.total := by
  induction songs generalizing acc with
  | nil => simp
  | cons e rest ih =>
    simp only [List.foldl_cons, List.length_cons]
    have h := lyricsStep_counts acc e
    have h2 := ih (lyricsStep acc e)
    refine ⟨?_, h2.2.trans h.2⟩
    rw [h2.1, h.1]
    omega

/-- C1: for every batch run of either enrichment orchestrator the returned
counters satisfy `total = fetched + failed + skipped`, `total` equals the
number of member files supplied, and each member file contributes to exactly
one of the three counters. -/
theorem C1_batch_counters_invariant :
    (∀ songs : List TrackSongEnv,
      (fetchTrackDataForSongs songs).total = songs.length ∧
      (fetchTrackDataForSongs songs).total =
        (fetchTrackDataForSongs songs).fetched + (fetchTrackDataForSongs songs).failed +
          (fetchTrackDataForSongs songs).skipped) ∧
    (∀ songs : List LyricsSongEnv,
      (fetchLyricsForSongs songs).total = songs.length ∧
      (fetchLyricsForSongs songs).total =
        (fetchLyricsForSongs songs).fetched + (fetchLyricsForSongs songs).failed +
          (fetchLyricsForSongs songs).skipped) ∧
    (∀ env : TrackSongEnv,
      (processSong env).1 = { fetched := true, failed := false, skipped := false } ∨
      (processSong env).1 = { fetched := false, failed := true, skipped := false } ∨
      (processSong env).1 = { fetched := false, failed := false, skipped := true }) ∧
    (∀ env : LyricsSongEnv,
      (processLyricsSong env).1 = LyricsOutcome.fetched ∨
      (processLyricsSong env).1 = LyricsOutcome.failed ∨
      (processLyricsSong env).1 = LyricsOutcome.skipped) := by
  refine ⟨fun songs => ?_, fun songs => ?_, processSong_flags, fun env => ?_⟩
  · have h := trackFold_counts songs
      { total := songs.length, fetched := 0, failed := 0, skipped := 0 }
    unfold fetchTrackDataForSongs
    constructor
    · exact h.2
    · rw [h.2, h.1]; simp
  · have h := lyricsFold_counts songs
      { total := songs.length, fetched := 0, failed := 0, skipped := 0 }
    unfold fetchLyricsForSongs
    constructor
    · exact h.2
    · rw [h.2, h.1]; simp
  · cases h : (processLyricsSong env).1
    · exact Or.inr (Or.inr rfl)
    · exact Or.inr (Or.inl rfl)
    · exact Or.inl rfl

/-- Environment of the C2 counterexample: the tag block carries only the
`energyval` metric tag and nothing else. -/
def onlyEnergyValEnv : TrackSongEnv :=
  { readResult := some [("energyval", ["50"])], fetchResult := none, writeOk := fun _ => true }

/-- C2 counterexample: a file whose tag block carries only `energyval` —
fewer than all three metric tags — is nonetheless counted as skipped, and
the provider is not invoked for it. -/
theorem C2_skip_counterexample :
    (processSong onlyEnergyValEnv).1.skipped = true ∧
    (([("energyval", ["50"])] : TagMap).any fun kv => lowerStr kv.1 == "happiness") = false ∧
    (([("energyval", ["50"])] : TagMap).any fun kv => lowerStr kv.1 == "instrumentalness") = false ∧
    Effect.fetchData ∉ (processSong onlyEnergyValEnv).2 := by
  decide

/-- C2 amended: a member file is counted as skipped exactly when its tag
block was read successfully and carries at least one of the three metric
tags (matching the tag name case-insensitively). -/
theorem C2_skip_on_any_metric_tag (env : TrackSongEnv) :
    (processSong env).1.skipped = true ↔
      ∃ tags, env.readResult = some tags ∧
        ∃ kv ∈ tags, lowerStr kv.1 = "energyval" ∨ lowerStr kv.1 = "happiness" ∨
          lowerStr kv.1 = "instrumentalness" := by
  rw [processSong_skipped_eq]
  rcases hr : env.readResult with _ | tags
  · simp
  · simp [hasTrackDataTag, List.any_eq_true, or_assoc]

/-- Environment of the C3 counterexample: read succeeds with no metric tags,
the provider fetch succeeds, and every file-tag write succeeds. -/
def fetchSuccessEnv : TrackSongEnv :=
  { readResult := some [], fetchResult := some ⟨50, 60, 70⟩, writeOk := fun _ => true }

/-- C3 counterexample: in the track-metrics flow a fully successful file is
counted as fetched although no database put ever occurs, so "persists the
updated database record … only after both does the file count as fetched"
fails there. -/
theorem C3_persist_counterexample :
    (processSong fetchSuccessEnv).1.fetched = true ∧
    Effect.dbPut ∉ (processSong fetchSuccessEnv).2 := by
  decide

/-- C3 amended: a file that counts as fetched in the lyrics flow had the
provider invoked and then the updated record persisted to the database;
a file that counts as fetched in the track-metrics flow had the provider
invoked and all three metric tags written to the audio file, with no
database put in that flow. -/
theorem C3_fetched_write_then_persist :
    (∀ env : LyricsSongEnv, (processLyricsSong env).1 = LyricsOutcome.fetched →
      env.putOk = true ∧
      (processLyricsSong env).2 = [Effect.readTags, Effect.fetchData, Effect.dbPut]) ∧
    (∀ env : TrackSongEnv, (processSong env).1.fetched = true →
      ∃ data, env.fetchResult = some data ∧
        env.writeOk "ENERGYVAL" = true ∧ env.writeOk "HAPPINESS" = true ∧
        env.writeOk "INSTRUMENTALNESS" = true ∧
        (processSong env).2 =
          [Effect.readTags, Effect.fetchData,
           Effect.writeTag "ENERGYVAL" (toString data.energyVal),
           Effect.writeTag "HAPPINESS" (toString data.happiness),
           Effect.writeTag "INSTRUMENTALNESS" (toString data.instrumentalness)] ∧
        Effect.dbPut ∉ (processSong env).2) := by
  constructor
  · intro env h
    by_cases hsk : (match env.readResult with
        | some tags => tags.any fun kv => strHasPrefix (lowerStr kv.1) "lyrics:"
        | none => false) = true
    · simp [processLyricsSong, hsk] at h
    · by_cases hfe : env.fetchErr = true
      · simp [processLyricsSong, hsk, hfe] at h
      · by_cases hfl : env.fetchList.length = 0
        · simp [processLyricsSong, hsk, hfe, hfl] at h
        · by_cases hml : env.marshalOk = false
          · simp [processLyricsSong, hsk, hfe, hfl, hml] at h
          · by_cases hpk : env.putOk = false
            · simp [processLyricsSong, hsk, hfe, hfl, hml, hpk] at h
            · refine ⟨by simpa using hpk, ?_⟩
              simp [processLyricsSong, hsk, hfe, hfl, hml, hpk]
  · intro env h
    rcases hr : env.readResult with _ | tags <;>
      rcases hf : env.fetchResult with _ | data
    · exact absurd h (by simp [processSong, hr, hf])
    · refine ⟨data, rfl, ?_⟩
      simp only [processSong, hr, hf] at h ⊢
      unfold writeTrackDataTags at h ⊢
      rcases h1 : env.writeOk "ENERGYVAL" <;>
        rcases h2 : env.writeOk "HAPPINESS" <;>
          rcases h3 : env.writeOk "INSTRUMENTALNESS" <;>
            simp [h1, h2, h3] at h ⊢
    · simp only [processSong, hr, hf] at h
      split at h <;> simp at h
    · have hsk : hasTrackDataTag tags = false := by
        by_contra hc
        rw [Bool.not_eq_false] at hc
        simp [processSong, hr, hf, hc] at h
      refine ⟨data, rfl, ?_⟩
      simp only [processSong, hr, hf, hsk] at h ⊢
      unfold writeTrackDataTags at h ⊢
      rcases h1 : env.writeOk "ENERGYVAL" <;>
        rcases h2 : env.writeOk "HAPPINESS" <;>
          rcases h3 : env.writeOk "INSTRUMENTALNESS" <;>
            simp [h1, h2, h3] at h ⊢

/-- Successful lyrics-flow environment used as the C3 witness input. -/
def lyricsSuccessEnv : LyricsSongEnv :=
  { readResult := some [], fetchErr := false, fetchList := ["lyric text"],
    marshalOk := true, putOk := true }

/-- Witness for C3: concrete successful runs in both flows. -/
theorem C3_fetched_write_then_persist_witness :
    (processLyricsSong lyricsSuccessEnv).2 = [Effect.readTags, Effect.fetchData, Effect.dbPut] ∧
    Effect.dbPut ∉ (processSong fetchSuccessEnv).2 := by
  refine ⟨(C3_fetched_write_then_persist.1 lyricsSuccessEnv (by decide)).2, ?_⟩
  obtain ⟨d, -, -, -, -, -, hnot⟩ :=
    C3_fetched_write_then_persist.2 fetchSuccessEnv (by decide)
  exact hnot

/-- C4: `classifyEnergy` is a pure function whose sub-scores follow the
scoring table, whose total is their sum, and whose label follows the
thresholds; on BPM=140, beats=0.75, loudness=0.85, danceability=0.75 it
yields breakdown {3,2,1,1}, total 7, label "high", and on BPM=90,
beats=0.3, loudness=0.5, danceability=0.2 it yields breakdown {1,0,0,0},
total 1, label "low". -/
theorem C4_classify_energy_table :
    (∀ m : AudioMetrics,
      (classifyEnergy m).2.bpmScore =
        (if m.bpm ≥ 130 then 3 else if m.bpm ≥ 110 then 2 else if m.bpm ≥ 85 then 1 else 0) ∧
      (classifyEnergy m).2.beatsScore =
        (if m.beatsLoudness ≥ 0.7 then 2 else if m.beatsLoudness ≥ 0.4 then 1 else 0) ∧
      (classifyEnergy m).2.loudnessScore = (if m.averageLoudness ≥ 0.8 then 1 else 0) ∧
      (classifyEnergy m).2.danceabilityScore = (if m.danceability ≥ 0.7 then 1 else 0) ∧
      (classifyEnergy m).2.totalScore =
        (classifyEnergy m).2.bpmScore + (classifyEnergy m).2.beatsScore +
          (classifyEnergy m).2.loudnessScore + (classifyEnergy m).2.danceabilityScore ∧
      (classifyEnergy m).1 =
        (if (classifyEnergy m).2.totalScore ≥ 5 then "high"
         else if (classifyEnergy m).2.totalScore ≥ 2 then "medium" else "low")) ∧
    classifyEnergy ⟨140, 0.75, 0.85, 0.75⟩ =
      ("high", { bpmScore := 3, beatsScore := 2, loudnessScore := 1,
                 danceabilityScore := 1, totalScore := 7 }) ∧
    classifyEnergy ⟨90, 0.3, 0.5, 0.2⟩ =
      ("low", { bpmScore := 1, beatsScore := 0, loudnessScore := 0,
                danceabilityScore := 0, totalScore := 1 }) := by
  refine ⟨fun m => ⟨rfl, rfl, rfl, rfl, rfl, rfl⟩,
    by norm_num [classifyEnergy], by norm_num [classifyEnergy]⟩

/-- The events `retryAux` produces from attempt `attempt` with `rem`
iterations left when every request completes with status 429. -/
def all429Trace : Nat → Nat → List RetryEvent
  | _, 0 => []
  | attempt, rem + 1 =>
    (if attempt = 0 then [] else [RetryEvent.wait (2 ^ attempt)]) ++ [RetryEvent.request] ++
      (if rem = 0 then [] else all429Trace (attempt + 1) rem)

/-- Under persistent 429 with no cancellation, the retry loop runs out of
attempts and reports `rateLimited`, with the all-429 event trace. -/
theorem retryAux_all429 (env : RetryEnv)
    (hn : ∀ i, env.netErr i = false) (hs : ∀ i, env.status i = 429)
    (hc : ∀ i, env.canceledDuringWait i = false) :
    ∀ rem attempt, 1 ≤ rem →
      retryAux env attempt rem =
        (Except.error FetchErr.rateLimited, all429Trace attempt rem) := by
  intro rem
  induction rem with
  | zero => omega
  | succ rem ih =>
    intro attempt _
    rcases Nat.eq_zero_or_pos rem with hrem | hrem
    · subst hrem
      simp only [retryAux, all429Trace, hn, hs, hc]
      by_cases h0 : attempt = 0 <;> simp [h0]
    · simp only [retryAux, all429Trace, hn, hs, hc]
      simp only [Nat.pos_iff_ne_zero] at hrem
      simp [hrem, ih (attempt + 1) (by omega)]
      split <;> rename_i heq
      · by_cases h0 : attempt = 0 <;> simp [h0] at heq
      · by_cases h0 : attempt = 0 <;> simp [h0] at heq ⊢ <;> simp [heq.symm]

/-- If the context is cancelled during the backoff wait before attempt `k`
(and every earlier request completed with 429), the retry loop reports the
cancellation error. -/
theorem retryAux_canceled (env : RetryEnv) (k : Nat) (hk1 : 1 ≤ k)
    (hn : ∀ i, i < k → env.netErr i = false)
    (hs : ∀ i, i < k → env.status i = 429)
    (hck : env.canceledDuringWait k = true)
    (hclt : ∀ i, i < k → env.canceledDuringWait i = false) :
    ∀ rem attempt, attempt ≤ k → k < attempt + rem →
      (retryAux env attempt rem).1 = Except.error FetchErr.canceled := by
  intro rem
  induction rem with
  | zero => omega
  | succ rem ih =>
    intro attempt hak hka
    rcases Nat.lt_or_ge attempt k with hlt | hge
    · have h0 : attempt = 0 ∨ ¬attempt = 0 := em _
      have hrem : rem ≠ 0 := by omega
      simp only [retryAux, hn attempt hlt, hs attempt hlt, hclt attempt hlt]
      rcases h0 with h0 | h0
      · subst h0
        simp [hrem, ih 1 (by omega) (by omega)]
      · simp [h0, hrem, ih (attempt + 1) (by omega) (by omega)]
    · have hak' : attempt = k := by omega
      subst hak'
      have h0 : ¬attempt = 0 := by omega
      simp [retryAux, h0, hck]

/-- Environment of the C5 counterexample and witness: every request completes
with HTTP 429 and the context is never cancelled. -/
def all429Env : RetryEnv :=
  { apiKey := "key", netErr := fun _ => false, status := fun _ => 429,
    canceledDuringWait := fun _ => false, decodeOk := true, responseData := ⟨0, 0, 0⟩ }

/-- The waits performed in an event trace, in order, in seconds. -/
def waitsOf (evs : List RetryEvent) : List Nat :=
  evs.filterMap fun e =>
    match e with
    | RetryEvent.wait s => some s
    | RetryEvent.request => none

/-- C5 counterexample: under persistent 429 the call performs backoff waits
of 2,4,8,16,32 seconds — five waits across the six attempts — not the
claimed 1,2,4,8,16,32-second sequence. -/
theorem C5_backoff_counterexample :
    (FetchTrackData all429Env "a" "t").1 = Except.error FetchErr.rateLimited ∧
    waitsOf (FetchTrackData all429Env "a" "t").2 = [2, 4, 8, 16, 32] ∧
    ¬ waitsOf (FetchTrackData all429Env "a" "t").2 = [1, 2, 4, 8, 16, 32] := by
  refine ⟨rfl, by decide, by decide⟩

/-- C5 amended: when the upstream returns HTTP 429 on every attempt the
client issues exactly six requests, with backoff waits of 2,4,8,16,32
seconds between consecutive attempts, and then returns `rateLimited`
rather than looping; if instead the caller's context is cancelled during
any of the backoff waits the call returns the cancellation error. -/
theorem C5_backoff_retry (env : RetryEnv) (artist title : String)
    (hk : env.apiKey ≠ "") (ha : artist ≠ "") (ht : title ≠ "")
    (hn : ∀ i, env.netErr i = false) (hs : ∀ i, env.status i = 429) :
    ((∀ i, env.canceledDuringWait i = false) →
      FetchTrackData env artist title =
        (Except.error FetchErr.rateLimited,
         [RetryEvent.request, RetryEvent.wait 2, RetryEvent.request, RetryEvent.wait 4,
          RetryEvent.request, RetryEvent.wait 8, RetryEvent.request, RetryEvent.wait 16,
          RetryEvent.request, RetryEvent.wait 32, RetryEvent.request])) ∧
    (∀ k, 1 ≤ k → k ≤ 5 → env.canceledDuringWait k = true →
      (∀ i, i < k → env.canceledDuringWait i = false) →
      (FetchTrackData env artist title).1 = Except.error FetchErr.canceled) := by
  constructor
  · intro hc
    have h := retryAux_all429 env hn hs hc 6 0 (by omega)
    have htr : all429Trace 0 6 =
        [RetryEvent.request, RetryEvent.wait 2, RetryEvent.request, RetryEvent.wait 4,
         RetryEvent.request, RetryEvent.wait 8, RetryEvent.request, RetryEvent.wait 16,
         RetryEvent.request, RetryEvent.wait 32, RetryEvent.request] := by decide
    simp [FetchTrackData, maxRetries, hk, ha, ht, h, htr]
  · intro k hk1 hk5 hck hclt
    have h := retryAux_canceled env k hk1 (fun i _ => hn i) (fun i _ => hs i) hck hclt
      6 0 (by omega) (by omega)
    simp [FetchTrackData, maxRetries, hk, ha, ht, h]

/-- Environment where every request is rate limited and the context is
cancelled during the wait before the fourth attempt. -/
def cancelAt3Env : RetryEnv :=
  { apiKey := "key", netErr := fun _ => false, status := fun _ => 429,
    canceledDuringWait := fun i => i == 3, decodeOk := true, responseData := ⟨0, 0, 0⟩ }

/-- Witness for C5: concrete all-429 runs, without and with cancellation. -/
theorem C5_backoff_retry_witness :
    FetchTrackData all429Env "a" "t" =
      (Except.error FetchErr.rateLimited,
       [RetryEvent.request, RetryEvent.wait 2, RetryEvent.request, RetryEvent.wait 4,
        RetryEvent.request, RetryEvent.wait 8, RetryEvent.request, RetryEvent.wait 16,
        RetryEvent.request, RetryEvent.wait 32, RetryEvent.request]) ∧
    (FetchTrackData cancelAt3Env "a" "t").1 = Except.error FetchErr.canceled := by
  constructor
  · exact (C5_backoff_retry all429Env "a" "t" (by decide) (by decide) (by decide)
      (fun i => rfl) (fun i => rfl)).1 (fun i => rfl)
  · exact (C5_backoff_retry cancelAt3Env "a" "t" (by decide) (by decide) (by decide)
      (fun i => rfl) (fun i => rfl)).2 3 (by decide) (by decide) rfl
      (fun i hi => by interval_cases i <;> rfl)

/-- Keys removed by `Tags.erase` are no longer found. -/
theorem find_filter_ne (l : TagMap) (k : String) :
    (l.filter fun kv => kv.1 ≠ k).find? (fun kv => kv.1 == k) = none := by
  induction l with
  | nil => rfl
  | cons hd tl ih =>
    by_cases h : hd.1 = k
    · simp [List.filter_cons, h, ih]
    · simp [List.filter_cons, h, List.find?_cons, ih]

/-- Looking up a key just set yields exactly the value written. -/
theorem tags_lookup_set (tags : TagMap) (k : String) (v : List String) :
    Tags.lookup (Tags.set tags k v) k = some v := by
  unfold Tags.lookup Tags.set
  rw [List.find?_append, find_filter_ne]
  simp

/-- Looking up an erased key yields nothing. -/
theorem tags_lookup_erase (tags : TagMap) (k : String) :
    Tags.lookup (Tags.erase tags k) k = none := by
  unfold Tags.lookup Tags.erase
  rw [find_filter_ne]
  rfl

/-- C6: when the physical file-tag write fails, both handlers return 500,
the database record is not updated, and the only effect performed is the
attempted file write — no database put occurs. -/
theorem C6_write_failure_leaves_db (env env' : SetTagEnv) (mf mf' : MediaFile)
    (hd : env.decodeOk = true) (hv : validEnergyValues.contains env.reqValue = true)
    (hg : env.getResult = GetResult.found mf) (hw : env.writeOk = false)
    (hd' : env'.decodeOk = true) (hv' : validMoodValues.contains env'.reqValue = true)
    (hg' : env'.getResult = GetResult.found mf') (hw' : env'.writeOk = false) :
    setEnergy env = { status := 500, record := none,
                      effects := [HandlerEffect.writeTag "ENERGY" env.reqValue] } ∧
    setMood env' = { status := 500, record := none,
                     effects := [HandlerEffect.writeTag "MOOD" env'.reqValue] } := by
  have hm : env.reqValue ∈ validEnergyValues := by simpa using hv
  have hm' : env'.reqValue ∈ validMoodValues := by simpa using hv'
  constructor
  · simp [setEnergy, hd, hm, hg, hw]
  · simp [setMood, hd', hm', hg', hw']

/-- Record used by the C6/C8 witnesses. -/
def witnessFile : MediaFile :=
  { id := "id1", libraryPath := "/music", path := "a.mp3",
    tags := [("energy", ["low"]), ("mood", ["neutral"])], updatedAt := 3 }

/-- Witness for C6: a concrete failing write for each handler. -/
theorem C6_write_failure_leaves_db_witness :
    setEnergy { decodeOk := true, reqValue := "high", getResult := GetResult.found witnessFile,
                writeOk := false, putOk := true, now := 9 } =
      { status := 500, record := none,
        effects := [HandlerEffect.writeTag "ENERGY" "high"] } ∧
    setMood { decodeOk := true, reqValue := "positive", getResult := GetResult.found witnessFile,
              writeOk := false, putOk := true, now := 9 } =
      { status := 500, record := none,
        effects := [HandlerEffect.writeTag "MOOD" "positive"] } :=
  C6_write_failure_leaves_db _ _ witnessFile witnessFile rfl rfl rfl rfl rfl rfl rfl rfl

/-- C7: a value outside the fixed enumeration is rejected with status 400
before any write: both handlers perform no effect at all. -/
theorem C7_invalid_enum_rejected (env env' : SetTagEnv)
    (hd : env.decodeOk = true) (hv : validEnergyValues.contains env.reqValue = false)
    (hd' : env'.decodeOk = true) (hv' : validMoodValues.contains env'.reqValue = false) :
    setEnergy env = { status := 400, record := none, effects := [] } ∧
    setMood env' = { status := 400, record := none, effects := [] } := by
  have hm : env.reqValue ∉ validEnergyValues := by simpa using hv
  have hm' : env'.reqValue ∉ validMoodValues := by simpa using hv'
  constructor
  · simp [setEnergy, hd, hm]
  · simp [setMood, hd', hm']

/-- Witness for C7: the value "extreme" is rejected by both handlers. -/
theorem C7_invalid_enum_rejected_witness :
    setEnergy { decodeOk := true, reqValue := "extreme", getResult := GetResult.found witnessFile,
                writeOk := true, putOk := true, now := 9 } =
      { status := 400, record := none, effects := [] } ∧
    setMood { decodeOk := true, reqValue := "extreme", getResult := GetResult.found witnessFile,
              writeOk := true, putOk := true, now := 9 } =
      { status := 400, record := none, effects := [] } :=
  C7_invalid_enum_rejected _ _ rfl rfl rfl rfl

/-- C8: a successful `SetTag` with a valid value stores that value as a
singleton list under the tag name, and setting the empty string removes the
entry from the mapping entirely. -/
theorem C8_set_then_read (env env' : SetTagEnv) (mf mf' : MediaFile)
    (hd : env.decodeOk = true) (hv : validEnergyValues.contains env.reqValue = true)
    (hg : env.getResult = GetResult.found mf) (hw : env.writeOk = true) (hp : env.putOk = true)
    (hd' : env'.decodeOk = true) (hv' : validMoodValues.contains env'.reqValue = true)
    (hg' : env'.getResult = GetResult.found mf') (hw' : env'.writeOk = true)
    (hp' : env'.putOk = true) :
    ((setEnergy env).status = 200 ∧ ∃ r, (setEnergy env).record = some r ∧
      r.updatedAt = env.now ∧
      Tags.lookup r.tags "energy" =
        (if env.reqValue = "" then none else some [env.reqValue])) ∧
    ((setMood env').status = 200 ∧ ∃ r, (setMood env').record = some r ∧
      r.updatedAt = env'.now ∧
      Tags.lookup r.tags "mood" =
        (if env'.reqValue = "" then none else some [env'.reqValue])) := by
  have hm : env.reqValue ∈ validEnergyValues := by simpa using hv
  have hm' : env'.reqValue ∈ validMoodValues := by simpa using hv'
  have he : ("" : String) ∈ validEnergyValues := by decide
  have he' : ("" : String) ∈ validMoodValues := by decide
  constructor
  · by_cases h : env.reqValue = "" <;>
      simp [setEnergy, hd, hm, he, hg, hw, hp, h, tags_lookup_set, tags_lookup_erase]
  · by_cases h : env'.reqValue = "" <;>
      simp [setMood, hd', hm', he', hg', hw', hp', h, tags_lookup_set, tags_lookup_erase]

/-- Witness for C8: setting "high" stores a singleton; setting "" removes
the mood entry. -/
theorem C8_set_then_read_witness :
    ((setEnergy { decodeOk := true, reqValue := "high",
                  getResult := GetResult.found witnessFile,
                  writeOk := true, putOk := true, now := 9 }).record.map fun r =>
        Tags.lookup r.tags "energy") = some (some ["high"]) ∧
    ((setMood { decodeOk := true, reqValue := "",
                getResult := GetResult.found witnessFile,
                writeOk := true, putOk := true, now := 9 }).record.map fun r =>
        Tags.lookup r.tags "mood") = some none := by
  have h := C8_set_then_read
    { decodeOk := true, reqValue := "high", getResult := GetResult.found witnessFile,
      writeOk := true, putOk := true, now := 9 }
    { decodeOk := true, reqValue := "", getResult := GetResult.found witnessFile,
      writeOk := true, putOk := true, now := 9 }
    witnessFile witnessFile rfl rfl rfl rfl rfl rfl rfl rfl rfl rfl
  obtain ⟨⟨-, r1, hr1, -, hl1⟩, ⟨-, r2, hr2, -, hl2⟩⟩ := h
  constructor
  · rw [hr1]
    simpa using hl1
  · rw [hr2]
    simpa using hl2

/-- Environment of the C9 witness: the tag block carries a correctly keyed
lyric entry. -/
def storedLyricsEnv : LyricsSongEnv :=
  { readResult := some [("LYRICS:eng", ["la la"])], fetchErr := false,
    fetchList := ["other"], marshalOk := true, putOk := true }

/-- C9: a member file whose successfully read tag block contains a key
beginning (case-insensitively) with the lyrics-language prefix is counted
as skipped, and the lyrics provider is never invoked for it. -/
theorem C9_stored_lyrics_skipped (env : LyricsSongEnv) (tags : TagMap)
    (kv : String × List String) (hr : env.readResult = some tags) (hmem : kv ∈ tags)
    (hpre : strHasPrefix (lowerStr kv.1) "lyrics:" = true) :
    (processLyricsSong env).1 = LyricsOutcome.skipped ∧
    (processLyricsSong env).2 = [Effect.readTags] ∧
    Effect.fetchData ∉ (processLyricsSong env).2 := by
  have hasL : (tags.any fun kv => strHasPrefix (lowerStr kv.1) "lyrics:") = true :=
    List.any_eq_true.mpr ⟨kv, hmem, hpre⟩
  refine ⟨?_, ?_, ?_⟩ <;> simp [processLyricsSong, hr, hasL]

/-- Witness for C9: a concrete file with an embedded `LYRICS:eng` tag is
skipped even though the provider would succeed. -/
theorem C9_stored_lyrics_skipped_witness :
    (processLyricsSong storedLyricsEnv).1 = LyricsOutcome.skipped ∧
    (processLyricsSong storedLyricsEnv).2 = [Effect.readTags] ∧
    Effect.fetchData ∉ (processLyricsSong storedLyricsEnv).2 :=
  C9_stored_lyrics_skipped storedLyricsEnv [("LYRICS:eng", ["la la"])]
    ("LYRICS:eng", ["la la"]) rfl (by decide) (by decide)

/-- C10: when reading the existing tag block fails, both flows treat the
file as having no stored data: it is not skipped, the provider fetch stage
is reached, and the outcome is exactly what it would have been with an
empty tag block. -/
theorem C10_read_error_proceeds (envT : TrackSongEnv) (envL : LyricsSongEnv)
    (hrT : envT.readResult = none) (hrL : envL.readResult = none) :
    (processSong envT).1.skipped = false ∧
    Effect.fetchData ∈ (processSong envT).2 ∧
    processSong envT = processSong { envT with readResult := some [] } ∧
    (processLyricsSong envL).1 ≠ LyricsOutcome.skipped ∧
    Effect.fetchData ∈ (processLyricsSong envL).2 ∧
    processLyricsSong envL = processLyricsSong { envL with readResult := some [] } := by
  refine ⟨?_, ?_, ?_, ?_, ?_, ?_⟩
  · rw [processSong_skipped_eq, hrT]
  · rcases hf : envT.fetchResult with _ | data
    · simp [processSong, hrT, hf]
    · simp only [processSong, hrT, hf]
      split
      · contradiction
      · split <;> simp
  · rcases hf : envT.fetchResult with _ | data <;>
      simp [processSong, hrT, hf, hasTrackDataTag, writeTrackDataTags]
  · simp only [processLyricsSong, hrL]
    (repeat' split) <;> first | contradiction | decide
  · simp only [processLyricsSong, hrL]
    (repeat' split) <;> first | contradiction | decide
  · simp [processLyricsSong, hrL]

/-- Track-metrics environment whose tag read fails. -/
def readFailTrackEnv : TrackSongEnv :=
  { readResult := none, fetchResult := none, writeOk := fun _ => true }

/-- Lyrics environment whose tag read fails. -/
def readFailLyricsEnv : LyricsSongEnv :=
  { readResult := none, fetchErr := false, fetchList := ["x"], marshalOk := true, putOk := true }

/-- Witness for C10: concrete failing reads in both flows still reach the
provider fetch stage and are not skipped. -/
theorem C10_read_error_proceeds_witness :
    (processSong readFailTrackEnv).1.skipped = false ∧
    Effect.fetchData ∈ (processSong readFailTrackEnv).2 ∧
    (processLyricsSong readFailLyricsEnv).1 ≠ LyricsOutcome.skipped ∧
    Effect.fetchData ∈ (processLyricsSong readFailLyricsEnv).2 := by
  have h := C10_read_error_proceeds readFailTrackEnv readFailLyricsEnv rfl rfl
  exact ⟨h.1, h.2.1, h.2.2.2.1, h.2.2.2.2.1⟩
